import Mathlib

/-!
Verification development for MyData's scan-verify-upload pipeline.

Shallow embedding of the code in `mydata/controllers/folders.py`,
`mydata/models/instrument.py` and `mydata/utils/openssh.py`, together with
theorems settling the behavioural claims about it.
-/

set_option autoImplicit false

namespace MyData

/-- A Python `threading.Event` object: its payload is whether the event is set. -/
structure PyEvent where
  isSet : Bool
deriving DecidableEq, Repr

/-- Python truthiness of a `threading.Event` *object*.  `threading.Event`
defines neither `__bool__` nor `__len__`, so any `Event` instance is truthy,
whether or not the event is set.  `folders.py` line 623 tests
`if not self.finishedCountingVerifications[folder]` on the Event object itself
(not on `.isSet()`), so that test always sees a truthy value. -/
def pyTruthy (_ : PyEvent) : Bool :=
  true

/-- The slice of `FoldersController` state read and written by
`CountCompletedUploadsAndVerifications`, `ShutDownUploadThreads` and
`FinishedScanningForDatasetFolders` (folders.py).

* `shuttingDown`, `completed`, `canceled`, `failed`: the controller's
  `threading.Event` lifecycle flags (`self.shuttingDown`, `self._completed`,
  `self._canceled`, `self._failed`), read through their properties.
* `testRun`: `self.testRun`.
* `finishedScanning`: whether `self.finishedScanningForDatasetFolders` is set.
* `folderFlags`: the values of the `self.finishedCountingVerifications` dict,
  one `threading.Event` per folder for which `StartUploadsForFolder` ran.
* `foldersModelCount`: `self.foldersModel.GetCount()`.
* `numVerificationsToBePerformed`: `self.numVerificationsToBePerformed`.
* `verificationsCompletedCount`: `self.verificationsModel.GetCompletedCount()`.
* `uploadsRowCount`: `self.uploadsModel.GetRowCount()`.
* `uploadsQueueSize`: `self.uploadsQueue.qsize()`.
* `uploadsCompletedCount`: `self.uploadsModel.GetCompletedCount()`.
* `uploadsFailedCount`: `self.uploadsModel.GetFailedCount()`.
* `uploadsAcknowledged`: `self.uploadsAcknowledged` (test-run bookkeeping).
* `mainLoopRunning`: `wx.PyApp.IsMainLoopRunning()`.
* `performingLookupsAndUploads`: `app.PerformingLookupsAndUploads()` — false
  means `StartUploadsForFolder` was never called this run. -/
structure FCState where
  shuttingDown : Bool
  completed : Bool
  canceled : Bool
  failed : Bool
  testRun : Bool
  finishedScanning : Bool
  folderFlags : List PyEvent
  foldersModelCount : Nat
  numVerificationsToBePerformed : Nat
  verificationsCompletedCount : Nat
  uploadsRowCount : Nat
  uploadsQueueSize : Nat
  uploadsCompletedCount : Nat
  uploadsFailedCount : Nat
  uploadsAcknowledged : Nat
  mainLoopRunning : Bool
  performingLookupsAndUploads : Bool
deriving DecidableEq, Repr

/-- folders.py lines 620-625: `finishedVerificationCounting` starts as
`self.finishedScanningForDatasetFolders.isSet()` and is cleared if any entry of
`self.finishedCountingVerifications` fails the test
`if not self.finishedCountingVerifications[folder]`.  The tested value is the
`threading.Event` object, so the test uses Python object truthiness
(`pyTruthy`), not `.isSet()`. -/
def finishedVerificationCounting (s : FCState) : Bool :=
  s.finishedScanning && s.folderFlags.all (fun e => pyTruthy e)

/-- folders.py lines 590-638, `CountCompletedUploadsAndVerifications`.
Returns the (unchanged) controller state paired with whether a
`ShutdownUploads(completed=True)` event was posted.  The method mutates no
controller flag or counter; it only reads them and posts events / status-bar
text.  The status-bar message (lines 608-618) is UI-only and not modelled. -/
def CountCompletedUploadsAndVerifications (s : FCState) : FCState × Bool :=
  if s.completed || s.canceled then
    (s, false)
  else
    let numVerificationsCompleted := s.verificationsCompletedCount
    let uploadsToBePerformed := s.uploadsRowCount + s.uploadsQueueSize
    let uploadsProcessed := s.uploadsCompletedCount + s.uploadsFailedCount
    let fvc := finishedVerificationCounting s
    if (numVerificationsCompleted == s.numVerificationsToBePerformed)
        && fvc
        && ((uploadsProcessed == uploadsToBePerformed)
            || (s.testRun && (s.uploadsAcknowledged == uploadsToBePerformed)))
    then
      (s, true)
    else if (!s.mainLoopRunning) && s.testRun && fvc then
      (s, true)
    else
      (s, false)

/-- The attributes of the event object handed to `ShutDownUploadThreads`.
`failed` stands for Python's `hasattr(event, "failed") and event.failed`
(folders.py line 670) and `completed` for
`hasattr(event, "completed") and event.completed` (line 673); for
`event = None` both are false. -/
structure ShutdownEvent where
  failed : Bool
  completed : Bool
deriving DecidableEq, Repr

/-- The final status strings of folders.py lines 659 and 700-729, one
constructor per distinct message text. -/
inductive StatusMessage where
  /-- "No folders were found to upload from." (line 659) -/
  | noFoldersFound : StatusMessage
  /-- "Data scans and uploads failed." (line 704) -/
  | failedMsg : StatusMessage
  /-- "Data scans and uploads were canceled." (line 706) -/
  | canceledMsg : StatusMessage
  /-- "Data scans and uploads completed with N failed upload(s)." (line 709) -/
  | completedWithFailures (n : Nat) : StatusMessage
  /-- "Data scans and uploads completed successfully." (line 713), possibly
  followed by the average-speed suffix of lines 714-724. -/
  | completedSuccessfully : StatusMessage
  /-- "No new files were found to upload." (line 726) -/
  | noNewFiles : StatusMessage
  /-- "Data scans and uploads appear to have completed successfully."
  (line 728) -/
  | appearCompleted : StatusMessage
deriving DecidableEq, Repr

/-- folders.py lines 640-749, `ShutDownUploadThreads`.  Returns the new
controller state paired with the final status message emitted, `none` when the
re-entrancy guard (line 645) returns early.  Thread joins, queue sentinels,
cache closing, process cleanup and UI calls are effects on external
collaborators and are not part of the controller state modelled here;
`uploadsModel.CancelRemaining()` (lines 672, 677) marks remaining uploads as
canceled without changing the completed/failed counts the messages read. -/
def ShutDownUploadThreads (s : FCState) (ev : ShutdownEvent) :
    FCState × Option StatusMessage :=
  if s.shuttingDown || s.completed || s.canceled then
    (s, none)
  else
    let s1 : FCState := { s with shuttingDown := true }
    if !s1.performingLookupsAndUploads then
      ({ s1 with completed := true, shuttingDown := false },
       some StatusMessage.noFoldersFound)
    else
      let s2 : FCState :=
        if ev.failed then { s1 with failed := true }
        else if ev.completed then { s1 with completed := true }
        else { s1 with canceled := true }
      let msg : StatusMessage :=
        if s2.failed then StatusMessage.failedMsg
        else if s2.canceled then StatusMessage.canceledMsg
        else if 0 < s2.uploadsFailedCount then
          StatusMessage.completedWithFailures s2.uploadsFailedCount
        else if s2.completed then
          (if 0 < s2.uploadsCompletedCount then
            StatusMessage.completedSuccessfully
          else StatusMessage.noNewFiles)
        else StatusMessage.appearCompleted
      ({ s2 with shuttingDown := false }, some msg)

/-- A controller state exercising the per-folder "finished counting" check:
scan-complete flag set, all verifications done, no uploads pending, but the
single folder's finished-counting `threading.Event` is NOT set. -/
def c1State : FCState where
  shuttingDown := false
  completed := false
  canceled := false
  failed := false
  testRun := false
  finishedScanning := true
  folderFlags := [⟨false⟩]
  foldersModelCount := 1
  numVerificationsToBePerformed := 1
  verificationsCompletedCount := 1
  uploadsRowCount := 0
  uploadsQueueSize := 0
  uploadsCompletedCount := 0
  uploadsFailedCount := 0
  uploadsAcknowledged := 0
  mainLoopRunning := true
  performingLookupsAndUploads := true

/-- C1: the completion predicate is required to demand that every folder's
per-folder "finished counting" flag is set, but the code's test
`if not self.finishedCountingVerifications[folder]` (folders.py line 623)
tests the truthiness of the `threading.Event` object, which is always true, so
the per-folder conjunct is vacuous: in `c1State` the only folder's flag is
unset, yet `CountCompletedUploadsAndVerifications` still posts
`ShutdownUploads(completed=True)`. -/
theorem C1_count_posts_despite_unset_folder_flag :
    (CountCompletedUploadsAndVerifications c1State).2 = true
    ∧ c1State.folderFlags.all (fun e => e.isSet) = false := by
  constructor
  · rfl
  · rfl

/-- A freshly running controller state: no lifecycle flag set, uploads were
performed, one upload failed and one completed. -/
def c2State : FCState where
  shuttingDown := false
  completed := false
  canceled := false
  failed := false
  testRun := false
  finishedScanning := true
  folderFlags := [⟨true⟩]
  foldersModelCount := 1
  numVerificationsToBePerformed := 2
  verificationsCompletedCount := 2
  uploadsRowCount := 2
  uploadsQueueSize := 0
  uploadsCompletedCount := 1
  uploadsFailedCount := 1
  uploadsAcknowledged := 0
  mainLoopRunning := true
  performingLookupsAndUploads := true

/-- The shutdown event carrying `failed=True` (posted on fatal errors). -/
def failedEv : ShutdownEvent := ⟨true, false⟩

/-- The shutdown event carrying `completed=True` (posted by the completion
predicate). -/
def completedEv : ShutdownEvent := ⟨false, true⟩

/-- C2 counterexample: after a first `ShutDownUploadThreads` run under the
`failed` event flag, the terminal state has `failed` set but neither
`completed` nor `canceled`, so the guard at folders.py line 645
(`IsShuttingDown() or completed or canceled`) does not fire and a second
invocation runs the whole shutdown again, emitting the completion status
message a second time — the claimed idempotence fails for the failed case. -/
theorem C2_second_shutdown_after_failed_emits_again :
    (ShutDownUploadThreads (ShutDownUploadThreads c2State failedEv).1
        failedEv).2 = some StatusMessage.failedMsg
    ∧ (ShutDownUploadThreads c2State failedEv).2
        = some StatusMessage.failedMsg := by
  constructor
  · rfl
  · rfl

/-- C2 amended: a `ShutDownUploadThreads` call made while shutdown is in
progress, or when the controller is already completed or canceled, is a no-op
(returns the state unchanged and emits no message); and when the first
invocation's event does not carry the `failed` flag, a second invocation with
any event is a no-op on the first invocation's terminal state and emits no
second completion message.  (After a `failed`-flagged shutdown the guard does
not fire, as the counterexample shows.) -/
theorem C2_shutdown_idempotent_unless_failed :
    ∀ (s : FCState) (ev ev2 : ShutdownEvent),
    ((s.shuttingDown || s.completed || s.canceled) = true →
      ShutDownUploadThreads s ev = (s, none))
    ∧ (ev.failed = false →
      ShutDownUploadThreads (ShutDownUploadThreads s ev).1 ev2
        = ((ShutDownUploadThreads s ev).1, none)) := by
  intro s ev ev2
  constructor
  · intro h
    simp [ShutDownUploadThreads, h]
  · intro hf
    by_cases hg : (s.shuttingDown || s.completed || s.canceled) = true
    · simp [ShutDownUploadThreads, hg]
    · simp only [Bool.not_eq_true] at hg
      by_cases hp : s.performingLookupsAndUploads = true
      · by_cases hc : ev.completed = true
        · simp [ShutDownUploadThreads, hg, hp, hf, hc]
        · simp only [Bool.not_eq_true] at hc
          simp [ShutDownUploadThreads, hg, hp, hf, hc]
      · simp only [Bool.not_eq_true] at hp
        simp [ShutDownUploadThreads, hg, hp]

/-- Witness for the amended C2 theorem at concrete inputs. -/
theorem C2_shutdown_idempotent_unless_failed_witness :
    ShutDownUploadThreads { c2State with canceled := true } completedEv
      = ({ c2State with canceled := true }, none)
    ∧ ShutDownUploadThreads (ShutDownUploadThreads c2State completedEv).1
        completedEv = ((ShutDownUploadThreads c2State completedEv).1, none) :=
  ⟨(C2_shutdown_idempotent_unless_failed
      { c2State with canceled := true } completedEv completedEv).1 (by decide),
   (C2_shutdown_idempotent_unless_failed c2State completedEv completedEv).2
      (by decide)⟩

/-- C7: `CountCompletedUploadsAndVerifications` never changes the controller
state — in particular it never sets the completed, canceled or failed flag; it
only posts the `ShutdownUploads(completed=True)` event.  The completed flag is
set inside the shutdown handler `ShutDownUploadThreads`: from a running state,
handling a `completed=True` event sets it. -/
theorem C7_completed_only_set_in_shutdown_handler :
    ∀ (s : FCState) (ev : ShutdownEvent),
    (CountCompletedUploadsAndVerifications s).1 = s
    ∧ (s.shuttingDown = false → s.completed = false → s.canceled = false →
        s.performingLookupsAndUploads = true → ev.failed = false →
        ev.completed = true →
        (ShutDownUploadThreads s ev).1.completed = true) := by
  intro s ev
  constructor
  · unfold CountCompletedUploadsAndVerifications
    dsimp only
    split_ifs <;> rfl
  · intro h1 h2 h3 hp hf hc
    simp [ShutDownUploadThreads, h1, h2, h3, hp, hf, hc]

/-- Witness for C7 at concrete inputs. -/
theorem C7_completed_only_set_in_shutdown_handler_witness :
    (CountCompletedUploadsAndVerifications c2State).1 = c2State
    ∧ (ShutDownUploadThreads c2State completedEv).1.completed = true :=
  ⟨(C7_completed_only_set_in_shutdown_handler c2State completedEv).1,
   (C7_completed_only_set_in_shutdown_handler c2State completedEv).2
      rfl rfl rfl rfl rfl rfl⟩

/-- The claim's selection rule for the final status message, stated from the
spec's words: the "No folders were found to upload from." message when
`StartUploadsForFolder` was never called; otherwise the failed message if the
failed flag is set; otherwise the canceled message if the canceled flag is
set; otherwise "completed with N failed upload(s)" if the failed-upload count
is positive; otherwise, when the run completed, "completed successfully" if at
least one upload completed and "No new files were found to upload." if none
did.  `none` marks the case the claim leaves unselected. -/
def specFinalMessage (performing failed canceled completed : Bool)
    (failedCount completedCount : Nat) : Option StatusMessage :=
  if !performing then some StatusMessage.noFoldersFound
  else if failed then some StatusMessage.failedMsg
  else if canceled then some StatusMessage.canceledMsg
  else if 0 < failedCount then
    some (StatusMessage.completedWithFailures failedCount)
  else if completed then
    some (if 0 < completedCount then StatusMessage.completedSuccessfully
          else StatusMessage.noNewFiles)
  else none

/-- C8: whenever `ShutDownUploadThreads` passes its re-entrancy guard (not
already shutting down, completed or canceled), the status message it emits is
exactly the one the claim's precedence selects from the resulting flags and
the upload counts, and a message is always emitted — in particular the
"appear to have completed successfully" fallback and the claim's unselected
case are never reached. -/
theorem C8_final_status_message_selection :
    ∀ (s : FCState) (ev : ShutdownEvent),
    s.shuttingDown = false → s.completed = false → s.canceled = false →
    (ShutDownUploadThreads s ev).2
      = specFinalMessage s.performingLookupsAndUploads
          (ShutDownUploadThreads s ev).1.failed
          (ShutDownUploadThreads s ev).1.canceled
          (ShutDownUploadThreads s ev).1.completed
          s.uploadsFailedCount s.uploadsCompletedCount
    ∧ ((ShutDownUploadThreads s ev).2).isSome = true := by
  intro s ev h1 h2 h3
  by_cases hp : s.performingLookupsAndUploads = true
  · by_cases hf : ev.failed = true
    · simp [ShutDownUploadThreads, specFinalMessage, h1, h2, h3, hp, hf]
    · simp only [Bool.not_eq_true] at hf
      by_cases hc : ev.completed = true
      · simp [ShutDownUploadThreads, specFinalMessage, h1, h2, h3, hp, hf,
          hc]
        split_ifs <;> rfl
      · simp only [Bool.not_eq_true] at hc
        simp [ShutDownUploadThreads, specFinalMessage, h1, h2, h3, hp, hf,
          hc]
        split_ifs <;> rfl
  · simp only [Bool.not_eq_true] at hp
    simp [ShutDownUploadThreads, specFinalMessage, h1, h2, h3, hp]

/-- Witness for C8 at a concrete input. -/
theorem C8_final_status_message_selection_witness :
    (ShutDownUploadThreads c2State completedEv).2
      = specFinalMessage c2State.performingLookupsAndUploads
          (ShutDownUploadThreads c2State completedEv).1.failed
          (ShutDownUploadThreads c2State completedEv).1.canceled
          (ShutDownUploadThreads c2State completedEv).1.completed
          c2State.uploadsFailedCount c2State.uploadsCompletedCount
    ∧ ((ShutDownUploadThreads c2State completedEv).2).isSome = true :=
  C8_final_status_message_selection c2State completedEv rfl rfl rfl

/-- `mydata/controllers/uploads.py`'s UploadMethod enumeration, as used in
folders.py (`HTTP_POST` is the bulk-HTTP method, `VIA_STAGING` the staged
method). -/
inductive UploadMethod where
  | HTTP_POST : UploadMethod
  | VIA_STAGING : UploadMethod
deriving DecidableEq, Repr

/-- The staging-access record returned by
`SETTINGS.uploaderModel.RequestStagingAccess()`; only its `approved` field is
read in folders.py lines 384-400. -/
structure StagingRequest where
  approved : Bool
deriving DecidableEq, Repr

/-- The two warning messages of folders.py lines 385-400, posted as
`ShowMessageDialogEvent`s with `wx.ICON_WARNING`. -/
inductive InitWarning where
  /-- "Couldn't determine whether uploads to staging have been approved.
  Falling back to HTTP POST." (lines 385-387) -/
  | cantDetermine : InitWarning
  /-- "Uploads to MyTardis's staging area require approval ... MyData will
  upload files using HTTP POST ..." (lines 392-400) -/
  | requestPending : InitWarning
deriving DecidableEq, Repr

/-- folders.py lines 363 and 383-408: `self.uploadMethod` starts as
`HTTP_POST`; if the staging request is absent the "couldn't determine" warning
is posted; if present and approved the method becomes `VIA_STAGING`; otherwise
the "request pending" warning is posted; whenever a warning was set the method
is (re)assigned `HTTP_POST`.  Returns the chosen method and the posted
warning, if any. -/
def chooseUploadMethod (uploadToStagingRequest : Option StagingRequest) :
    UploadMethod × Option InitWarning :=
  match uploadToStagingRequest with
  | none => (UploadMethod.HTTP_POST, some InitWarning.cantDetermine)
  | some req =>
    if req.approved then (UploadMethod.VIA_STAGING, none)
    else (UploadMethod.HTTP_POST, some InitWarning.requestPending)

/-- folders.py lines 362 and 409-415: `self.numUploadWorkerThreads` is
`SETTINGS.advanced.maxUploadThreads`, reduced to 1 when the chosen method is
`HTTP_POST` and the value exceeds 1. -/
def uploadPoolSize (maxUploadThreads : Nat) (method : UploadMethod) : Nat :=
  if method = UploadMethod.HTTP_POST && maxUploadThreads > 1 then 1
  else maxUploadThreads

/-- folders.py lines 417-424: upload worker threads are started, one per pool
slot, only when `wx.PyApp.IsMainLoopRunning()`; outside the main loop tasks
run synchronously and no worker thread is started. -/
def numUploadThreadsStarted (mainLoopRunning : Bool) (poolSize : Nat) : Nat :=
  if mainLoopRunning then poolSize else 0

/-- C4: the upload method is selected by exactly the claimed rule: staging
record absent ⟹ bulk-HTTP plus a warning; present and approved ⟹ staged with
no warning; present but not approved ⟹ bulk-HTTP plus the "request pending"
warning. -/
theorem C4_upload_method_selection :
    ∀ (req : StagingRequest),
    chooseUploadMethod none
      = (UploadMethod.HTTP_POST, some InitWarning.cantDetermine)
    ∧ (req.approved = true →
        chooseUploadMethod (some req) = (UploadMethod.VIA_STAGING, none))
    ∧ (req.approved = false →
        chooseUploadMethod (some req)
          = (UploadMethod.HTTP_POST, some InitWarning.requestPending)) := by
  intro req
  refine ⟨rfl, ?_, ?_⟩
  · intro h
    simp [chooseUploadMethod, h]
  · intro h
    simp [chooseUploadMethod, h]

/-- Witness for C4 at concrete inputs. -/
theorem C4_upload_method_selection_witness :
    chooseUploadMethod (some ⟨true⟩) = (UploadMethod.VIA_STAGING, none)
    ∧ chooseUploadMethod (some ⟨false⟩)
      = (UploadMethod.HTTP_POST, some InitWarning.requestPending) :=
  ⟨(C4_upload_method_selection ⟨true⟩).2.1 rfl,
   (C4_upload_method_selection ⟨false⟩).2.2 rfl⟩

/-- C3 counterexample: the clamp at folders.py lines 409-415 only reduces
values greater than 1, so with `maxUploadThreads = 0` and the bulk-HTTP
method the pool size is 0, not 1, and no upload worker thread is started even
with the main loop running. -/
theorem C3_pool_size_zero_not_clamped_to_one :
    uploadPoolSize 0 UploadMethod.HTTP_POST = 0
    ∧ (uploadPoolSize 0 UploadMethod.HTTP_POST = 1 → False)
    ∧ numUploadThreadsStarted false 1 = 0 := by
  refine ⟨rfl, ?_, rfl⟩
  intro h
  simp [uploadPoolSize] at h

/-- C3 amended: for every `maxUploadThreads ≥ 1`, when the chosen method is
bulk-HTTP the pool size is exactly 1 and, when the GUI main loop is running,
exactly one upload worker thread is started (outside the main loop no worker
threads are started and tasks run synchronously); when the staged method is
chosen the pool size is `maxUploadThreads`. -/
theorem C3_bulk_http_pool_clamped_to_one :
    ∀ (maxUploadThreads : Nat),
    (1 ≤ maxUploadThreads →
      uploadPoolSize maxUploadThreads UploadMethod.HTTP_POST = 1
      ∧ numUploadThreadsStarted true
          (uploadPoolSize maxUploadThreads UploadMethod.HTTP_POST) = 1)
    ∧ uploadPoolSize maxUploadThreads UploadMethod.VIA_STAGING
        = maxUploadThreads := by
  intro n
  constructor
  · intro h
    have hpool : uploadPoolSize n UploadMethod.HTTP_POST = 1 := by
      unfold uploadPoolSize
      rcases Nat.lt_or_ge 1 n with h1 | h1
      · simp [h1]
      · interval_cases n
        simp
    exact ⟨hpool, by simp [numUploadThreadsStarted, hpool]⟩
  · simp [uploadPoolSize]

/-- Witness for the amended C3 theorem at a concrete input. -/
theorem C3_bulk_http_pool_clamped_to_one_witness :
    uploadPoolSize 5 UploadMethod.HTTP_POST = 1
    ∧ numUploadThreadsStarted true
        (uploadPoolSize 5 UploadMethod.HTTP_POST) = 1 :=
  (C3_bulk_http_pool_clamped_to_one 5).1 (by decide)

/-- The error kinds a verify/upload task can hit while running (spec §7:
network and parse errors such as `HttpError`, `SshFailure`). -/
inductive TaskError where
  | httpError : TaskError
  | sshFailure : TaskError
  | parseError : TaskError
deriving DecidableEq, Repr

/-- A verify/upload task, abstracted to whether running it hits an error. -/
structure WorkerTask where
  err : Option TaskError
deriving DecidableEq, Repr

/-- Terminal status a task's record reaches when its `Run` returns. -/
inductive TaskStatus where
  | completed : TaskStatus
  | failed : TaskStatus
deriving DecidableEq, Repr

/-- What `task.Run()` does as seen by the worker loop: either it returns
normally, having driven the task's record to a terminal status, or an
exception escapes it. -/
inductive RunOutcome where
  | normal (status : TaskStatus) : RunOutcome
  | raised : RunOutcome
deriving DecidableEq, Repr

/-- Modelled from the spec: `VerifyDatafileRunnable.Run` and
`UploadDatafileRunnable.Run` live in `mydata/controllers/verifications.py`
and `mydata/controllers/uploads.py`, which are not under src/; only their
caller (folders.py) is.  Spec §4.2 step 5 ("Any network/parse error →
*Failed*, increment failed-lookup counter; never stops the pool") and §7
("*HttpError* and *SshFailure* on individual tasks mark that task *Failed*
and continue; they never stop the pool"): `Run` catches the task's
network/parse errors, marks the task's record *Failed*, and returns normally
rather than letting the exception escape. -/
def taskRun (t : WorkerTask) : RunOutcome :=
  match t.err with
  | none => RunOutcome.normal TaskStatus.completed
  | some _ => RunOutcome.normal TaskStatus.failed

/-- folders.py lines 557-588, `VerificationWorker`: loop forever; return if
shutting down; take the next queue item; break on the `None` sentinel; run the
task; if an exception escapes `task.Run()`, log it and return (lines 573-588).
The queue is modelled as the list of items the worker would take, and the
result is the list of tasks run, each with the terminal status its record
reached. -/
def VerificationWorker (shuttingDown : Bool) :
    List (Option WorkerTask) → List (WorkerTask × TaskStatus)
  | [] => []
  | item :: rest =>
    if shuttingDown then []
    else
      match item with
      | none => []
      | some t =>
        match taskRun t with
        | RunOutcome.normal status =>
          (t, status) :: VerificationWorker shuttingDown rest
        | RunOutcome.raised => []

/-- folders.py lines 524-555, `UploadWorker`: identical loop structure to
`VerificationWorker` (sentinel `return` instead of `break`, same observable
behaviour), over the uploads queue. -/
def UploadWorker (shuttingDown : Bool) :
    List (Option WorkerTask) → List (WorkerTask × TaskStatus)
  | [] => []
  | item :: rest =>
    if shuttingDown then []
    else
      match item with
      | none => []
      | some t =>
        match taskRun t with
        | RunOutcome.normal status =>
          (t, status) :: UploadWorker shuttingDown rest
        | RunOutcome.raised => []

/-- The tasks sitting in the queue ahead of the first shutdown sentinel. -/
def tasksBeforeSentinel : List (Option WorkerTask) → List WorkerTask
  | [] => []
  | none :: _ => []
  | some t :: rest => t :: tasksBeforeSentinel rest

/-- The terminal status a task reaches: *Failed* exactly when running it hits
an error, *Completed* otherwise. -/
def expectedStatus (t : WorkerTask) : TaskStatus :=
  if t.err.isSome then TaskStatus.failed else TaskStatus.completed

/-- C5: while the controller is not shutting down, each worker runs every task
in its queue up to the first shutdown sentinel — a task whose run hits a
network/parse error is marked *Failed* and the worker carries on with the
subsequent tasks; the pool is never stopped by a failing task. -/
theorem C5_worker_survives_failing_tasks :
    ∀ (queue : List (Option WorkerTask)),
    VerificationWorker false queue
      = (tasksBeforeSentinel queue).map (fun t => (t, expectedStatus t))
    ∧ UploadWorker false queue
      = (tasksBeforeSentinel queue).map (fun t => (t, expectedStatus t)) := by
  intro queue
  induction queue with
  | nil => exact ⟨rfl, rfl⟩
  | cons item rest ih =>
    match item with
    | none => exact ⟨rfl, rfl⟩
    | some t =>
      match ht : t.err with
      | none =>
        refine ⟨?_, ?_⟩
        · simp [VerificationWorker, taskRun, ht, tasksBeforeSentinel,
            expectedStatus, ih.1]
        · simp [UploadWorker, taskRun, ht, tasksBeforeSentinel,
            expectedStatus, ih.2]
      | some e =>
        refine ⟨?_, ?_⟩
        · simp [VerificationWorker, taskRun, ht, tasksBeforeSentinel,
            expectedStatus, ih.1]
        · simp [UploadWorker, taskRun, ht, tasksBeforeSentinel,
            expectedStatus, ih.2]

/-- folders.py lines 438-440: the spin condition of
`FinishedScanningForDatasetFolders`.  The method stays in the 10 ms sleep loop
exactly while `len(self.finishedCountingVerifications.keys())` — the number of
folders for which `StartUploadsForFolder` has run far enough to insert its
entry — is below `self.foldersModel.GetCount()`. -/
def finishedScanningSpinning (s : FCState) : Bool :=
  decide (s.folderFlags.length < s.foldersModelCount)

/-- folders.py lines 430-441, `FinishedScanningForDatasetFolders`, as a step
function: it sets the scan-complete flag `finishedScanningForDatasetFolders`;
while the spin condition holds of the current state the call is still blocked
(`none`); once it fails, the call invokes
`CountCompletedUploadsAndVerifications` exactly once and returns its result. -/
def FinishedScanningForDatasetFolders (s : FCState) :
    Option (FCState × Bool) :=
  let s1 : FCState := { s with finishedScanning := true }
  if finishedScanningSpinning s1 then none
  else some (CountCompletedUploadsAndVerifications s1)

/-- C6 counterexample: the spin of folders.py lines 438-440 compares the
number of dict *entries* with the folder count and never consults the
per-folder `threading.Event`s, so in `c1State` — where the single folder's
entry exists but its "finished counting" flag is unset — the call stops
waiting and invokes the completion check, while the claim requires it to keep
waiting until every per-folder flag is set. -/
theorem C6_spin_ignores_folder_flags :
    (FinishedScanningForDatasetFolders c1State).isSome = true
    ∧ c1State.folderFlags.all (fun e => e.isSet) = false := by
  constructor
  · rfl
  · rfl

/-- C6 amended: `FinishedScanningForDatasetFolders` sets the scan-complete
flag, then waits exactly until the number of folders for which
`StartUploadsForFolder` has been called (entries in the finished-counting
map) reaches the folders-model count — regardless of whether the per-folder
"finished counting" flags are set — and only then invokes the completion
check, exactly once, on the scan-complete state. -/
theorem C6_waits_for_folder_entries_then_checks_once :
    ∀ (s : FCState),
    (FinishedScanningForDatasetFolders s = none
      ↔ s.folderFlags.length < s.foldersModelCount)
    ∧ (s.foldersModelCount ≤ s.folderFlags.length →
        FinishedScanningForDatasetFolders s
          = some (CountCompletedUploadsAndVerifications
              { s with finishedScanning := true })) := by
  intro s
  constructor
  · unfold FinishedScanningForDatasetFolders finishedScanningSpinning
    dsimp only
    split_ifs with h
    · simpa using h
    · simpa using h
  · intro h
    unfold FinishedScanningForDatasetFolders finishedScanningSpinning
    dsimp only
    split_ifs with h2
    · exact absurd (by simpa using h2) (by omega)
    · rfl

/-- Witness for the amended C6 theorem at a concrete input. -/
theorem C6_waits_for_folder_entries_then_checks_once_witness :
    FinishedScanningForDatasetFolders c1State
      = some (CountCompletedUploadsAndVerifications
          { c1State with finishedScanning := true }) :=
  (C6_waits_for_folder_entries_then_checks_once c1State).2 (by decide)

/-- The errors `InstrumentModel.RenameInstrument`
(mydata/models/instrument.py lines 86-112) can raise: plain `Exception`s for
a missing facility or a missing old-instrument record, and `DuplicateKey`
when an instrument with the new name already exists. -/
inductive RenameError where
  | facilityNone : RenameError
  | oldInstrumentNotFound : RenameError
  | duplicateKey : RenameError
deriving DecidableEq, Repr

/-- The server-side records the rename flow reads and writes: the facilities
visible to the user (`FacilityModel.GetMyFacilities`) and the instrument
records, each as a (facility name, instrument name) pair — only names matter
to this flow. -/
structure ServerState where
  facilities : List String
  instruments : List (String × String)
deriving DecidableEq, Repr

/-- instrument.py lines 62-84, `GetInstrument`: query the instruments of a
facility by name; zero matches raises `DoesNotExist` (here `none`), otherwise
the first matching record is returned. -/
def GetInstrument (srv : ServerState) (facility name : String) :
    Option (String × String) :=
  (srv.instruments.filter (fun p => p.1 == facility && p.2 == name)).head?

/-- instrument.py lines 114-129, `Rename`: the PUT that renames the given
instrument record on the server. -/
def renamePut (srv : ServerState) (facility oldName newName : String) :
    ServerState :=
  { srv with
    instruments := srv.instruments.map
      (fun p => if p.1 == facility && p.2 == oldName then (p.1, newName)
                else p) }

/-- instrument.py lines 86-112, `RenameInstrument`: find the facility by name
(`for facil in facilities: if facilityName == facil.name`); raise if absent;
fetch the old instrument, raising if absent; fetch the new name — if that
lookup succeeds raise `DuplicateKey` (the `raise` sits inside a
`try`/`except DoesNotExist`, and `DuplicateKey` is not a `DoesNotExist`, so
it propagates); only when the new name is absent is the rename PUT issued.
Returns the resulting server state and the raised error, if any. -/
def RenameInstrument (srv : ServerState)
    (facilityName oldInstrumentName newInstrumentName : String) :
    ServerState × Option RenameError :=
  match srv.facilities.find? (fun f => facilityName == f) with
  | none => (srv, some RenameError.facilityNone)
  | some fac =>
    match GetInstrument srv fac oldInstrumentName with
    | none => (srv, some RenameError.oldInstrumentNotFound)
    | some _ =>
      match GetInstrument srv fac newInstrumentName with
      | some _ => (srv, some RenameError.duplicateKey)
      | none =>
        (renamePut srv fac oldInstrumentName newInstrumentName, none)

/-- C9: when the target facility is found, the old instrument exists, and an
instrument with the new name already exists in that facility,
`RenameInstrument` raises `DuplicateKey` and leaves the server state
untouched — no rename PUT is issued, so the old instrument keeps its
original name. -/
theorem C9_rename_collision_raises_duplicate_key :
    ∀ (srv : ServerState) (facilityName old new fac : String),
    srv.facilities.find? (fun f => facilityName == f) = some fac →
    (GetInstrument srv fac old).isSome = true →
    (GetInstrument srv fac new).isSome = true →
    RenameInstrument srv facilityName old new
      = (srv, some RenameError.duplicateKey) := by
  intro srv facilityName old new fac hfac hold hnew
  obtain ⟨po, ho⟩ := Option.isSome_iff_exists.mp hold
  obtain ⟨pn, hn⟩ := Option.isSome_iff_exists.mp hnew
  simp [RenameInstrument, hfac, ho, hn]

/-- Witness for C9 at a concrete server state. -/
theorem C9_rename_collision_raises_duplicate_key_witness :
    RenameInstrument
        ⟨["Test Facility"], [("Test Facility", "Old Microscope"),
                             ("Test Facility", "New Microscope")]⟩
        "Test Facility" "Old Microscope" "New Microscope"
      = (⟨["Test Facility"], [("Test Facility", "Old Microscope"),
                              ("Test Facility", "New Microscope")]⟩,
         some RenameError.duplicateKey) :=
  C9_rename_collision_raises_duplicate_key
    ⟨["Test Facility"], [("Test Facility", "Old Microscope"),
                         ("Test Facility", "New Microscope")]⟩
    "Test Facility" "Old Microscope" "New Microscope" "Test Facility"
    (by rfl) (by rfl) (by rfl)

/-- The double-quote character. -/
def quoteChar : Char := Char.ofNat 34

/-- The dollar-sign character. -/
def dollarChar : Char := Char.ofNat 36

/-- The backslash character. -/
def backslashChar : Char := Char.ofNat 92

/-- The backtick character. -/
def backtickChar : Char := Char.ofNat 96

/-- Python's `str.replace(old, new)` for a single-character needle, over
strings as lists of characters: every occurrence of `old` is replaced by
`new`. -/
def pyReplaceChar (old : Char) (new : List Char) : List Char → List Char
  | [] => []
  | c :: cs => (if c = old then new else [c]) ++ pyReplaceChar old new cs

/-- mydata/utils/openssh.py lines 113-122, `OpenSSH.DoubleQuoteRemotePath`:
replace `"` by `\"`, then a backtick by backslash-backslash-backtick
(`r'\\` + backtick`, two backslashes), then `$` by `\\$` (two backslashes),
and wrap the result in double quotes (`'"%s"' % path`). -/
def DoubleQuoteRemotePath (string : List Char) : List Char :=
  let path := pyReplaceChar quoteChar [backslashChar, quoteChar] string
  let path := pyReplaceChar backtickChar
    [backslashChar, backslashChar, backtickChar] path
  let path := pyReplaceChar dollarChar
    [backslashChar, backslashChar, dollarChar] path
  quoteChar :: path ++ [quoteChar]

/-- Character-wise effect of the three replacements: a double quote gains one
leading backslash, a backtick and a dollar sign gain two, and every other
character is unchanged. -/
def escapeRemoteChar (c : Char) : List Char :=
  if c = quoteChar then [backslashChar, quoteChar]
  else if c = backtickChar then
    [backslashChar, backslashChar, backtickChar]
  else if c = dollarChar then [backslashChar, backslashChar, dollarChar]
  else [c]

/-- `escapeRemoteChar` applied across a string. -/
def escapeAll : List Char → List Char
  | [] => []
  | c :: cs => escapeRemoteChar c ++ escapeAll cs

theorem pyReplaceChar_append (old : Char) (new : List Char)
    (a b : List Char) :
    pyReplaceChar old new (a ++ b)
      = pyReplaceChar old new a ++ pyReplaceChar old new b := by
  induction a with
  | nil => rfl
  | cons c cs ih => simp [pyReplaceChar, ih]

theorem escapeChain_single (c : Char) :
    pyReplaceChar dollarChar [backslashChar, backslashChar, dollarChar]
      (pyReplaceChar backtickChar
        [backslashChar, backslashChar, backtickChar]
        (pyReplaceChar quoteChar [backslashChar, quoteChar] [c]))
      = escapeRemoteChar c := by
  by_cases h1 : c = quoteChar
  · subst h1; decide
  · by_cases h2 : c = backtickChar
    · subst h2; decide
    · by_cases h3 : c = dollarChar
      · subst h3; decide
      · simp [pyReplaceChar, escapeRemoteChar, h1, h2, h3]

theorem escapeChain_eq (s : List Char) :
    pyReplaceChar dollarChar [backslashChar, backslashChar, dollarChar]
      (pyReplaceChar backtickChar
        [backslashChar, backslashChar, backtickChar]
        (pyReplaceChar quoteChar [backslashChar, quoteChar] s))
      = escapeAll s := by
  induction s with
  | nil => rfl
  | cons c cs ih =>
    have e1 := pyReplaceChar_append quoteChar [backslashChar, quoteChar]
      [c] cs
    rw [show (c :: cs : List Char) = [c] ++ cs from rfl, e1,
      pyReplaceChar_append backtickChar
        [backslashChar, backslashChar, backtickChar],
      pyReplaceChar_append dollarChar
        [backslashChar, backslashChar, dollarChar],
      ih, escapeChain_single c]
    rfl

theorem escapeAll_of_no_special (s : List Char)
    (h : ∀ c ∈ s, c ≠ quoteChar ∧ c ≠ backtickChar ∧ c ≠ dollarChar) :
    escapeAll s = s := by
  induction s with
  | nil => rfl
  | cons c cs ih =>
    have hc := h c (List.mem_cons_self c cs)
    have hrest : ∀ x ∈ cs,
        x ≠ quoteChar ∧ x ≠ backtickChar ∧ x ≠ dollarChar :=
      fun x hx => h x (List.mem_cons_of_mem c hx)
    simp [escapeAll, escapeRemoteChar, hc.1, hc.2.1, hc.2.2, ih hrest]

/-- C10: `DoubleQuoteRemotePath` wraps its input in double quotes and
escapes, character by character, exactly the embedded double quotes,
backticks and dollar signs (a double quote with one backslash, a backtick and
a dollar sign with two), changing no other character; in particular a string
containing none of those characters is returned with a single double quote
prepended and appended. -/
theorem C10_double_quote_remote_path :
    ∀ (s : List Char),
    DoubleQuoteRemotePath s = quoteChar :: escapeAll s ++ [quoteChar]
    ∧ ((∀ c ∈ s, c ≠ quoteChar ∧ c ≠ backtickChar ∧ c ≠ dollarChar) →
        DoubleQuoteRemotePath s = quoteChar :: s ++ [quoteChar]) := by
  intro s
  have hmain : DoubleQuoteRemotePath s
      = quoteChar :: escapeAll s ++ [quoteChar] := by
    unfold DoubleQuoteRemotePath
    dsimp only
    rw [escapeChain_eq]
  refine ⟨hmain, fun h => ?_⟩
  rw [hmain, escapeAll_of_no_special s h]

/-- Witness for C10 at a concrete input. -/
theorem C10_double_quote_remote_path_witness :
    DoubleQuoteRemotePath ['a', 'b']
      = quoteChar :: ['a', 'b'] ++ [quoteChar] :=
  (C10_double_quote_remote_path ['a', 'b']).2 (by decide)

end MyData
